import Mathlib

/-!
Verification of the invoice field-extraction core of `src/app.py`
(`extract_invoice_data` and the helpers it relies on).

The Python function applies a fixed table of regular expressions to the
concatenated OCR text with `re.search(pattern, full_text, re.IGNORECASE)`,
plus two line heuristics (company name, line items).  We embed the exact
regexes as abstract syntax (`RE`) and give them Python `re` semantics: a
backtracking matcher that returns the list of possible outcomes in
backtracking priority order (greedy quantifiers, leftmost alternative
first), and a search that scans start positions left to right and returns
the first match found.  Character classes `\d`, `\s` and case folding are
modelled on their ASCII core (`Char.isDigit`, `Char.isWhitespace`,
ASCII lowercasing), which covers every character these claims exercise.

All definitions are structurally recursive so that concrete runs reduce
inside the kernel (`decide`).
-/

/-- ASCII lowercasing, the effect of `re.IGNORECASE` on the ASCII pattern
literals used by `app.py`. -/
def lc (c : Char) : Char :=
  if 'A' ≤ c ∧ c ≤ 'Z' then Char.ofNat (c.toNat + 32) else c

/-- Model of the regex class `\s` (Python whitespace, ASCII core). -/
def isWS (c : Char) : Bool := c.isWhitespace

/-- Model of the regex class `\d` (Python digit, ASCII core). -/
def isD (c : Char) : Bool := c.isDigit

/-- Model of the class `[:\s]` from the patterns in `app.py`. -/
def isColonWS (c : Char) : Bool := c == ':' || isWS c

/-- Model of the class `[:\s#]` from the `numero_factura` patterns. -/
def isColonWSHash (c : Char) : Bool := c == ':' || c == '#' || isWS c

/-- Model of the class `[A-Z0-9\-]` under `re.IGNORECASE`. -/
def isAlnumDash (c : Char) : Bool :=
  ('A' ≤ c ∧ c ≤ 'Z' : Bool) || ('a' ≤ c ∧ c ≤ 'z' : Bool) || isD c || c == '-'

/-- Model of the currency class `[S\/\$]` under `re.IGNORECASE`. -/
def isCurrency (c : Char) : Bool := c == 'S' || c == 's' || c == '/' || c == '$'

/-- Model of the class `[\/\-]` from the date patterns. -/
def isSlashDash (c : Char) : Bool := c == '/' || c == '-'

/-- Model of the class `[\.\,]` from the line-item pattern. -/
def isDotComma (c : Char) : Bool := c == '.' || c == ','

/-- Model of the class `[úu]` under `re.IGNORECASE`. -/
def isUAccent (c : Char) : Bool := c == 'ú' || c == 'u' || c == 'Ú' || c == 'U'

/-- Abstract syntax for the fragment of Python regexes used in `app.py`.
`lit` is a case-insensitive literal (stored lowercase); `cls` a character
class; `clsStar`/`clsRep` are `*` and `{lo,hi}` over a class; `opt` is `?`;
`star` is `(?: ... )*`; `group` the single capturing group. -/
inductive RE where
  | lit : List Char → RE
  | cls : (Char → Bool) → RE
  | clsStar : (Char → Bool) → RE
  | clsRep : (Char → Bool) → Nat → Nat → RE
  | opt : RE → RE
  | seq : RE → RE → RE
  | alt : RE → RE → RE
  | star : RE → RE
  | group : RE → RE

/-- Capture state: contents of group 1, when that group has matched. -/
abbrev Cap := Option (List Char)

/-- Matcher outcomes: remaining input together with the capture state, in
backtracking priority order (first = the match Python's engine commits to). -/
abbrev Out := List (List Char × Cap)

/-- Combine capture states when sequencing (our patterns contain a single
group, so at most one side is populated). -/
def mergeCap : Cap → Cap → Cap
  | some x, _ => some x
  | none, y => y

/-- Case-insensitive literal match: consume `p` (lowercase) from the front
of the input, returning the rest. -/
def litM : List Char → List Char → Option (List Char)
  | [], s => some s
  | _ :: _, [] => none
  | p :: ps, c :: cs => if lc c == p then litM ps cs else none

/-- Greedy Kleene star of a character class: outcomes from the longest
consumed prefix down to the empty one. -/
def clsStarM (p : Char → Bool) : List Char → Out
  | [] => [([], none)]
  | c :: cs => (if p c then clsStarM p cs else []) ++ [(c :: cs, none)]

/-- Greedy bounded repetition `{lo,hi}` of a character class. -/
def clsRepM (p : Char → Bool) : Nat → Nat → List Char → Out
  | lo, 0, s => if lo == 0 then [(s, none)] else []
  | lo, _ + 1, [] => if lo == 0 then [([], none)] else []
  | lo, h + 1, c :: cs =>
      (if p c then clsRepM p (lo - 1) h cs else []) ++
      (if lo == 0 then [(c :: cs, none)] else [])

/-- Greedy star of a general body: `m` matches one body occurrence; `k`
bounds the number of iterations (each iteration must consume input, which
every starred body in `app.py` does, so `k = input length` is exact). -/
def starLoop (m : List Char → Out) : Nat → List Char → Out
  | 0, s => [(s, none)]
  | k + 1, s =>
      ((m s).flatMap fun r1 =>
        if r1.1.length < s.length then
          (starLoop m k r1.1).map fun r2 => (r2.1, mergeCap r1.2 r2.2)
        else []) ++ [(s, none)]

/-- Backtracking matcher: all ways `re` can match a prefix of the input,
in Python `re` backtracking priority order. -/
def M : RE → List Char → Out
  | .lit p, s =>
      match litM p s with
      | some r => [(r, none)]
      | none => []
  | .cls p, s =>
      match s with
      | c :: cs => if p c then [(cs, none)] else []
      | [] => []
  | .clsStar p, s => clsStarM p s
  | .clsRep p lo hi, s => clsRepM p lo hi s
  | .opt r, s => M r s ++ [(s, none)]
  | .seq a b, s =>
      (M a s).flatMap fun r1 =>
        (M b r1.1).map fun r2 => (r2.1, mergeCap r1.2 r2.2)
  | .alt a b, s => M a s ++ M b s
  | .star r, s => starLoop (M r) s.length s
  | .group r, s =>
      (M r s).map fun r1 => (r1.1, some (s.take (s.length - r1.1.length)))

/-- Model of `re.search`: try to match at each start position from the
left; at the first position with a match, commit to the highest-priority
outcome and return its capture state (`some cap` = a match was found). -/
def searchAux (re : RE) : List Char → Option Cap
  | [] =>
      match M re [] with
      | r :: _ => some r.2
      | [] => none
  | c :: rest =>
      match M re (c :: rest) with
      | r :: _ => some r.2
      | [] => searchAux re rest

/-- Whether `re.search` finds any match in the text. -/
def reTest (re : RE) (s : List Char) : Bool := (searchAux re s).isSome

/-- Shorthand for `p+` (one or more): one mandatory class character then a
greedy star, which yields the same greedy outcome order as Python. -/
def clsPlus (p : Char → Bool) : RE := RE.seq (RE.cls p) (RE.clsStar p)

/-- Sequence a nonempty list of regex parts left to right. -/
def seqs : List RE → RE
  | [] => RE.lit []
  | [r] => r
  | r :: rs => RE.seq r (seqs rs)

/-- Alternation over a nonempty list, leftmost alternative first. -/
def alts : List RE → RE
  | [] => RE.lit []
  | [r] => r
  | r :: rs => RE.alt r (alts rs)

/-!
Python string helpers used by `extract_invoice_data`, modelled over
`List Char` so that everything reduces structurally.
-/

/-- Model of Python `str.strip()`: drop whitespace from both ends. -/
def pyStrip (l : List Char) : List Char :=
  ((l.dropWhile isWS).reverse.dropWhile isWS).reverse

/-- Model of Python `full_text.split('\n')`: note that splitting a string
that ends in a newline produces a final empty piece, and splitting the
empty string produces one empty piece. -/
def splitNL : List Char → List (List Char)
  | [] => [[]]
  | c :: cs =>
      if c == '\n' then [] :: splitNL cs
      else
        match splitNL cs with
        | h :: t => (c :: h) :: t
        | [] => [[c]]

/-- Model of Python `str.split()` with no argument: the maximal runs of
non-whitespace characters (`acc` holds the current run, reversed). -/
def pySplitWS (acc : List Char) : List Char → List (List Char)
  | [] => if acc.isEmpty then [] else [acc.reverse]
  | c :: cs =>
      if isWS c then
        if acc.isEmpty then pySplitWS [] cs
        else acc.reverse :: pySplitWS [] cs
      else pySplitWS (c :: acc) cs

/-- Token list of a line, as in `line.split()`. -/
def pyTokens (l : List Char) : List (List Char) := pySplitWS [] l

/-- Model of `re.search(r'\d', line)` being truthy: the line contains a
digit. -/
def containsDigit (l : List Char) : Bool := l.any isD

/-!
The pattern table of `extract_invoice_data` (`patterns` in `app.py`),
transcribed regex by regex.
-/

/-- Regex `(?:factura|invoice|n[úu]mero?)[:\s#]*([A-Z0-9\-]+)`. -/
def numeroPat1 : RE :=
  seqs [alts [RE.lit "factura".data, RE.lit "invoice".data,
              seqs [RE.lit "n".data, RE.cls isUAccent, RE.lit "mer".data,
                    RE.opt (RE.cls (fun c => lc c == 'o'))]],
        RE.clsStar isColonWSHash, RE.group (clsPlus isAlnumDash)]

/-- Regex `(?:fact|fac)[:\s#]*([A-Z0-9\-]+)`. -/
def numeroPat2 : RE :=
  seqs [alts [RE.lit "fact".data, RE.lit "fac".data],
        RE.clsStar isColonWSHash, RE.group (clsPlus isAlnumDash)]

/-- Regex `(?:serie|no\.?)[:\s]*([A-Z0-9\-]+)`. -/
def numeroPat3 : RE :=
  seqs [alts [RE.lit "serie".data,
              RE.seq (RE.lit "no".data) (RE.opt (RE.cls (fun c => c == '.')))],
        RE.clsStar isColonWS, RE.group (clsPlus isAlnumDash)]

/-- The date-shaped token `\d{1,2}[\/\-]\d{1,2}[\/\-]\d{2,4}`. -/
def dateToken : RE :=
  seqs [RE.clsRep isD 1 2, RE.cls isSlashDash, RE.clsRep isD 1 2,
        RE.cls isSlashDash, RE.clsRep isD 2 4]

/-- Regex `(?:fecha|date)[:\s]*(\d{1,2}[\/\-]\d{1,2}[\/\-]\d{2,4})`. -/
def fechaPat1 : RE :=
  seqs [alts [RE.lit "fecha".data, RE.lit "date".data],
        RE.clsStar isColonWS, RE.group dateToken]

/-- Regex `(\d{1,2}[\/\-]\d{1,2}[\/\-]\d{2,4})`. -/
def fechaPat2 : RE := RE.group dateToken

/-- Regex `(?:ruc|nit|tax\s*id)[:\s]*(\d{10,15})`. -/
def rucPat1 : RE :=
  seqs [alts [RE.lit "ruc".data, RE.lit "nit".data,
              seqs [RE.lit "tax".data, RE.clsStar isWS, RE.lit "id".data]],
        RE.clsStar isColonWS, RE.group (RE.clsRep isD 10 15)]

/-- Regex `(\d{11})` (the bare 11-digit fallback). -/
def rucPat2 : RE := RE.group (RE.clsRep isD 11 11)

/-- The grouped amount `(\d{1,3}(?:,\d{3})*\.?\d{0,2})`. -/
def amountGroup : RE :=
  RE.group (seqs [RE.clsRep isD 1 3,
                  RE.star (RE.seq (RE.cls (fun c => c == ',')) (RE.clsRep isD 3 3)),
                  RE.opt (RE.cls (fun c => c == '.')), RE.clsRep isD 0 2])

/-- The suffix `[:\s]*[S\/\$]?\s*(amount)` shared by all amount patterns. -/
def amountTail : RE :=
  seqs [RE.clsStar isColonWS, RE.opt (RE.cls isCurrency), RE.clsStar isWS,
        amountGroup]

/-- Regex `(?:total|amount)[:\s]*[S\/\$]?\s*(\d{1,3}(?:,\d{3})*\.?\d{0,2})`. -/
def totalPat1 : RE :=
  RE.seq (alts [RE.lit "total".data, RE.lit "amount".data]) amountTail

/-- Regex `(?:total\s*general|grand\s*total)[:\s]*[S\/\$]?\s*(...)`. -/
def totalPat2 : RE :=
  RE.seq (alts [seqs [RE.lit "total".data, RE.clsStar isWS, RE.lit "general".data],
                seqs [RE.lit "grand".data, RE.clsStar isWS, RE.lit "total".data]])
    amountTail

/-- Regex `(?:subtotal|sub\s*total)[:\s]*[S\/\$]?\s*(...)`. -/
def subtotalPat1 : RE :=
  RE.seq (alts [RE.lit "subtotal".data,
                seqs [RE.lit "sub".data, RE.clsStar isWS, RE.lit "total".data]])
    amountTail

/-- Regex `(?:igv|iva|tax)[:\s]*[S\/\$]?\s*(...)`. -/
def igvPat1 : RE :=
  RE.seq (alts [RE.lit "igv".data, RE.lit "iva".data, RE.lit "tax".data])
    amountTail

/-- The `patterns["numero_factura"]` list. -/
def numeroPatterns : List RE := [numeroPat1, numeroPat2, numeroPat3]

/-- The `patterns["fecha"]` list. -/
def fechaPatterns : List RE := [fechaPat1, fechaPat2]

/-- The `patterns["ruc_nit"]` list. -/
def rucPatterns : List RE := [rucPat1, rucPat2]

/-- The `patterns["total"]` list. -/
def totalPatterns : List RE := [totalPat1, totalPat2]

/-- The `patterns["subtotal"]` list. -/
def subtotalPatterns : List RE := [subtotalPat1]

/-- The `patterns["igv_iva"]` list. -/
def igvPatterns : List RE := [igvPat1]

/-- The line-item test `re.search(r'\d+[\.\,]\d{2}', line)`. -/
def itemPat : RE := seqs [clsPlus isD, RE.cls isDotComma, RE.clsRep isD 2 2]

/-!
The extraction function itself.
-/

/-- The inner loop of `extract_invoice_data` for one field:
`for pattern in field_patterns: match = re.search(pattern, full_text,
re.IGNORECASE); if match and not invoice_data[field]:
invoice_data[field] = match.group(1).strip(); break`.
`acc` is the current value of `invoice_data[field]`. -/
def runPatterns (full : List Char) : List RE → String → String
  | [], acc => acc
  | p :: ps, acc =>
      match searchAux p full with
      | some cap =>
          if acc = "" then String.mk (pyStrip (cap.getD []))
          else runPatterns full ps acc
      | none => runPatterns full ps acc

/-- The company-name scan of `extract_invoice_data`: over the given lines
(the caller passes `lines[:5]`), pick the first whose stripped length
exceeds 5 and which contains no digit; stop there. -/
def findCompany : List (List Char) → String
  | [] => ""
  | l :: ls =>
      if 5 < (pyStrip l).length ∧ containsDigit l = false then String.mk (pyStrip l)
      else findCompany ls

/-- Whether a line qualifies as a line-item candidate: it contains a
2-decimal amount token and splits into at least 3 whitespace tokens. -/
def isItemLine (l : List Char) : Bool :=
  reTest itemPat l && decide (3 ≤ (pyTokens l).length)

/-- The line-item scan of `extract_invoice_data`: every qualifying line,
stripped, in source order, with no cap. -/
def findItems (lines : List (List Char)) : List String :=
  (lines.filter isItemLine).map fun l => String.mk (pyStrip l)

/-- The concatenation loop of `extract_invoice_data`: for every page of
`readResults` and every line of the page, append the line text plus a
newline. -/
def fullTextOf (pages : List (List String)) : List Char :=
  pages.flatMap fun page => page.flatMap fun line => line.data ++ ['\n']

/-- The `invoice_data` dictionary built by `extract_invoice_data`,
with the Python key names. -/
structure InvoiceData where
  numero_factura : String
  fecha : String
  empresa : String
  ruc_nit : String
  cliente : String
  total : String
  subtotal : String
  igv_iva : String
  items : List String
deriving Repr, DecidableEq

/-- The body of `extract_invoice_data` after the guard: build `full_text`,
run the pattern table, the company heuristic on `lines[:5]` and the item
scan, and return `(invoice_data, full_text)`.  The `cliente` key is
initialised to the empty string and no pattern list exists for it. -/
def processPages (pages : List (List String)) : InvoiceData × String :=
  let full := fullTextOf pages
  let lines := splitNL full
  ({ numero_factura := runPatterns full numeroPatterns ""
   , fecha := runPatterns full fechaPatterns ""
   , empresa := findCompany (lines.take 5)
   , ruc_nit := runPatterns full rucPatterns ""
   , cliente := ""
   , total := runPatterns full totalPatterns ""
   , subtotal := runPatterns full subtotalPatterns ""
   , igv_iva := runPatterns full igvPatterns ""
   , items := findItems lines }, String.mk full)

/-- Model of `extract_invoice_data(ocr_result)` on its non-raising input
domain.  The input is `none` when `ocr_result` is falsy or lacks the
`"readResults"` key, in which case the Python function returns the empty
dict (modelled as `none`) instead of a populated record; otherwise the
pages are the line texts of a well-shaped `readResults`.  Truthy OCR
values whose `readResults` content is ill-shaped make the Python function
raise instead; those paths are not representable in this input type and
are modelled separately by `extract_invoice_data_py` below, which agrees
with this function on the domain covered here. -/
def extract_invoice_data (ocr_result : Option (List (List String))) :
    Option (InvoiceData × String) :=
  match ocr_result with
  | none => none
  | some pages => some (processPages pages)

/-- The ambient module state of `app.py` visible from
`extract_invoice_data`: the Azure credential globals read via
`st.secrets`.  The function never reads them. -/
structure AppEnv where
  azure_endpoint : String
  azure_api_key : String

/-- Model of `extract_invoice_data` as it actually sits in the module: in
scope of the ambient globals, which its body never mentions. -/
def extract_invoice_data_env (_env : AppEnv)
    (ocr_result : Option (List (List String))) : Option (InvoiceData × String) :=
  extract_invoice_data ocr_result

/-- The company value described by claim C4, following its words: the
first line among the first 5 of the given line sequence whose trimmed
length exceeds 5 characters and which contains no digit, trimmed; empty
when none qualifies. -/
def companyOfLines (lines : List String) : String :=
  findCompany ((lines.take 5).map String.data)

/-!
A richer model of the input domain for the totality claim: `ocr_result`
is an arbitrary Python value, and `extract_invoice_data` raises
`KeyError`/`TypeError` when a truthy value carries a `readResults` key
whose content is not shaped like the Azure read response (a list of
pages, each a dict with a `lines` list of dicts each carrying a string
`text`).  The `Option`-typed model above covers the falsy/no-key branch
and the well-shaped branch; the model below adds the raising paths.
-/

theorem val_bounds_of_isD {c : Char} (h : isD c = true) :
    48 ≤ c.val ∧ c.val ≤ 57 := by
  simp only [isD, Char.isDigit, Bool.and_eq_true, decide_eq_true_eq] at h
  exact ⟨h.1, h.2⟩

theorem isWS_of_isD {c : Char} (h : isD c = true) : isWS c = false := by
  obtain ⟨h1, h2⟩ := val_bounds_of_isD h
  simp only [isWS, Char.isWhitespace, Bool.or_eq_false_iff, decide_eq_false_iff_not]
  refine ⟨⟨⟨?_, ?_⟩, ?_⟩, ?_⟩ <;> (intro heq; subst heq; revert h1; decide)

theorem beq_eq_false_of_isD {c d : Char} (h : isD c = true) (hd : isD d = false) :
    (c == d) = false := by
  obtain ⟨h1, h2⟩ := val_bounds_of_isD h
  rw [beq_eq_false_iff_ne]
  intro heq
  subst heq
  rw [isD, Char.isDigit] at hd
  simp only [Bool.and_eq_false_iff, decide_eq_false_iff_not] at hd
  rcases hd with h3 | h3 <;> exact h3 (by assumption)

theorem isColonWS_of_isD {c : Char} (h : isD c = true) : isColonWS c = false := by
  rw [isColonWS, beq_eq_false_of_isD h (by decide), isWS_of_isD h]
  rfl

theorem isCurrency_of_isD {c : Char} (h : isD c = true) : isCurrency c = false := by
  rw [isCurrency, beq_eq_false_of_isD h (by decide), beq_eq_false_of_isD h (by decide),
    beq_eq_false_of_isD h (by decide), beq_eq_false_of_isD h (by decide)]
  rfl

theorem starLoop_of_nil {m : List Char → Out} {s : List Char} (hm : m s = [])
    (k : Nat) : starLoop m k s = [(s, none)] := by
  cases k with
  | zero => rfl
  | succ k => rw [starLoop, hm]; rfl

theorem dropWhile_eq_self_of_all {p : Char → Bool} {l : List Char}
    (h : ∀ c ∈ l, p c = false) : l.dropWhile p = l := by
  cases l with
  | nil => rfl
  | cons c cs =>
      rw [List.dropWhile_cons, h c (List.mem_cons_self c cs)]
      rfl

theorem pyStrip_eq_self_of_all {l : List Char} (h : ∀ c ∈ l, isWS c = false) :
    pyStrip l = l := by
  rw [pyStrip, dropWhile_eq_self_of_all h, dropWhile_eq_self_of_all, List.reverse_reverse]
  intro c hc
  exact h c (List.mem_reverse.mp hc)

theorem searchAux_totalPat1_digitRun (a b c d e : Char) (r : List Char)
    (ha : isD a = true) (hb : isD b = true) (hc : isD c = true)
    (hd : isD d = true) (he : isD e = true) :
    searchAux totalPat1 ('T' :: 'o' :: 't' :: 'a' :: 'l' :: ':' :: ' ' :: a :: b :: c :: d :: e :: r) =
      some (some [a, b, c, d, e]) := by
  simp +decide +arith only [searchAux, totalPat1, amountTail, amountGroup, seqs, alts, M,
    litM, clsStarM, clsRepM, clsPlus, starLoop_of_nil, mergeCap, lc,
    ha, hb, hc, hd, he, isWS_of_isD, isColonWS_of_isD, isCurrency_of_isD, beq_eq_false_of_isD,
    if_true, if_false,
    List.flatMap_cons, List.flatMap_nil, List.flatMap_append, List.map_cons, List.map_nil,
    List.append_nil, List.nil_append, List.cons_append, List.append_assoc,
    List.length_cons, List.length_nil, List.take_succ_cons, List.take_zero]
  have h5 : r.length + 1 + 1 + 1 + 1 + 1 - r.length = 5 := by omega
  rw [h5]
  rfl

theorem runPatterns_of_ne {full : List Char} {acc : String} (hacc : acc ≠ "") :
    ∀ ps : List RE, runPatterns full ps acc = acc := by
  intro ps
  induction ps with
  | nil => rfl
  | cons p ps ih =>
      rw [runPatterns]
      cases searchAux p full with
      | none => exact ih
      | some cap =>
          simp only []
          rw [if_neg hacc]
          exact ih

theorem splitNL_append_cons {l : List Char} (hl : '\n' ∉ l) (r : List Char) :
    splitNL (l ++ '\n' :: r) = l :: splitNL r := by
  induction l with
  | nil =>
      rw [List.nil_append, splitNL]
      rfl
  | cons c cs ih =>
      have hc : (c == '\n') = false := by
        rw [beq_eq_false_iff_ne]
        intro h
        exact hl (h ▸ List.mem_cons_self c cs)
      have hcs : '\n' ∉ cs := fun h => hl (List.mem_cons_of_mem _ h)
      rw [List.cons_append, splitNL, hc, ih hcs]
      rfl

theorem splitNL_flat {ls : List (List Char)} (h : ∀ l ∈ ls, '\n' ∉ l) :
    splitNL (ls.flatMap fun l => l ++ ['\n']) = ls ++ [[]] := by
  induction ls with
  | nil => rfl
  | cons l ls ih =>
      rw [List.flatMap_cons, List.append_assoc, List.singleton_append,
        splitNL_append_cons (h l (List.mem_cons_self l ls)),
        ih fun x hx => h x (List.mem_cons_of_mem _ hx)]
      rfl

theorem findCompany_append_empty (n : Nat) (ls : List (List Char)) :
    findCompany ((ls ++ [[]]).take n) = findCompany (ls.take n) := by
  induction ls generalizing n with
  | nil =>
      cases n with
      | zero => rfl
      | succ n =>
          rw [List.nil_append, List.take_succ_cons, List.take_nil, List.take_nil]
          decide
  | cons l ls ih =>
      cases n with
      | zero => rfl
      | succ n =>
          rw [List.cons_append, List.take_succ_cons, List.take_succ_cons, findCompany,
            findCompany, ih]

theorem fullTextOf_eq (pages : List (List String)) :
    fullTextOf pages =
      ((pages.flatMap id).map String.data).flatMap fun l => l ++ ['\n'] := by
  rw [List.flatMap_map, List.flatMap_assoc]
  unfold fullTextOf
  simp only [id_eq]

theorem fullTextOf_all_empty {pages : List (List String)} (h : ∀ p ∈ pages, p = []) :
    fullTextOf pages = [] := by
  induction pages with
  | nil => rfl
  | cons p ps ih =>
      rw [fullTextOf, List.flatMap_cons, h p (List.mem_cons_self p ps)]
      exact ih fun q hq => h q (List.mem_cons_of_mem _ hq)

/-- Claim C1.  The claim states that for text containing `Total: S/ 1,234.56`
(and no total-general or grand-total phrase) the extracted `total` is
`1,234.56`.  The code disagrees: the currency class `[S\/\$]?` of the total
pattern can skip at most one character, so the two-character Peruvian
currency marker `S/` makes the pattern fail and `total` stays empty.  This
theorem evaluates the code at the failing input. -/
theorem C1_theorem :
    (extract_invoice_data (some [["Total: S/ 1,234.56"]])).map (fun r => r.1.total) =
      some "" := by decide

/-- Claim C3.  First conjunct: once a field holds a non-empty value, the
remaining patterns of its list never overwrite it (first-match-wins).
Second conjunct: whenever the first `factura:`-style pattern of
`numero_factura` matches (whatever the later `serie:` pattern does), the
extracted invoice number is the first pattern's capturing group, stripped
as by the assignment `match.group(1).strip()`. -/
theorem C3_theorem :
    (∀ (full : List Char) (ps : List RE) (acc : String),
        acc ≠ "" → runPatterns full ps acc = acc) ∧
    (∀ (pages : List (List String)) (cap : Cap),
        searchAux numeroPat1 (fullTextOf pages) = some cap →
        (searchAux numeroPat3 (fullTextOf pages)).isSome = true →
        (extract_invoice_data (some pages)).map (fun r => r.1.numero_factura) =
          some (String.mk (pyStrip (cap.getD [])))) := by
  constructor
  · intro full ps acc hacc
    exact runPatterns_of_ne hacc ps
  · intro pages cap h1 _h3
    simp only [extract_invoice_data, Option.map_some', processPages, numeroPatterns,
      runPatterns, h1, if_true]

/-- Witness for C3 at concrete inputs: a non-empty field value survives a
later matching pattern, and on the text `Factura: A-00123 Serie: B-9`,
where both the `factura:` and the `serie:` patterns match, the extracted
number is the `factura:` capture `A-00123`. -/
theorem C3_witness :
    (("x" : String) ≠ "" ∧ runPatterns ['y'] [RE.cls isD] "x" = "x") ∧
    (searchAux numeroPat1 (fullTextOf [["Factura: A-00123 Serie: B-9"]]) =
        some (some ("A-00123".data)) ∧
      (searchAux numeroPat3 (fullTextOf [["Factura: A-00123 Serie: B-9"]])).isSome = true ∧
      (extract_invoice_data (some [["Factura: A-00123 Serie: B-9"]])).map
          (fun r => r.1.numero_factura) = some "A-00123") := by
  constructor
  · exact ⟨by decide, C3_theorem.1 ['y'] [RE.cls isD] "x" (by decide)⟩
  · refine ⟨by decide, by decide, ?_⟩
    have h := C3_theorem.2 [["Factura: A-00123 Serie: B-9"]] (some ("A-00123".data))
      (by decide) (by decide)
    rw [h]
    decide

/-- Claim C4, counterexample.  The claim quantifies over every line
sequence, but the code recomputes its lines by splitting the concatenated
text at newlines, so a line that itself contains a newline is handled
differently: for the single line `abcdef` + newline + `1`, the claim says
the company stays empty (the line contains a digit), while the code splits
it and extracts `abcdef`. -/
theorem C4_counterexample :
    companyOfLines ["abcdef\n1"] = "" ∧
    (extract_invoice_data (some [["abcdef\n1"]])).map (fun r => r.1.empresa) =
      some "abcdef" := by decide

/-- Claim C4, amended.  For every line sequence in which no line contains
an embedded newline, the company field equals the trimmed text of the
first line among the first 5 whose trimmed length exceeds 5 and which
contains no digit (empty when none qualifies); in particular, for the
lines `ACME CORP` and `RUC: 12345678901`, the company is `ACME CORP` and
the tax id is `12345678901`. -/
theorem C4_theorem :
    (∀ pages : List (List String),
        (∀ l ∈ pages.flatMap id, '\n' ∉ l.data) →
        (extract_invoice_data (some pages)).map (fun r => r.1.empresa) =
          some (companyOfLines (pages.flatMap id))) ∧
    (extract_invoice_data (some [["ACME CORP", "RUC: 12345678901"]])).map
        (fun r => (r.1.empresa, r.1.ruc_nit)) = some ("ACME CORP", "12345678901") := by
  refine ⟨?_, by decide⟩
  intro pages hnl
  have h2 : ∀ l ∈ (pages.flatMap id).map String.data, '\n' ∉ l := by
    intro l hm
    obtain ⟨s, hs, rfl⟩ := List.mem_map.mp hm
    exact hnl s hs
  simp only [extract_invoice_data, Option.map_some', processPages, companyOfLines]
  rw [fullTextOf_eq, splitNL_flat h2, findCompany_append_empty, List.map_take]

/-- Witness for C4 at the newline-free ACME input. -/
theorem C4_witness :
    (extract_invoice_data (some [["ACME CORP", "RUC: 12345678901"]])).map
        (fun r => r.1.empresa) =
      some (companyOfLines ([["ACME CORP", "RUC: 12345678901"]].flatMap id)) :=
  C4_theorem.1 [["ACME CORP", "RUC: 12345678901"]] (by decide)

/-- Claim C5, counterexample.  The claim says a line appears in `items`
exactly when it qualifies, but the code appends `line.strip()`: the
qualifying line with two leading spaces before `a b 1.00` does not itself
appear in `items`; only its stripped form does. -/
theorem C5_counterexample :
    isItemLine ("  a b 1.00".data) = true ∧
    (extract_invoice_data (some [["  a b 1.00"]])).map (fun r => r.1.items) =
      some ["a b 1.00"] ∧
    ("  a b 1.00" : String) ∉ (["a b 1.00"] : List String) := by decide

/-- Claim C5, amended.  For every input, `items` equals exactly the
trimmed texts of the qualifying lines of the concatenated text split at
newlines (a line qualifies when it contains a 2-decimal amount token and
splits into 3 or more whitespace tokens), in source order and with no cap;
in particular `Widget A  2  19.99` appears verbatim (it equals its own
trim) and `Phone: 123` does not appear. -/
theorem C5_theorem :
    (∀ pages : List (List String),
        (extract_invoice_data (some pages)).map (fun r => r.1.items) =
          some (((splitNL (fullTextOf pages)).filter isItemLine).map
            fun l => String.mk (pyStrip l))) ∧
    (extract_invoice_data (some [["Widget A  2  19.99", "Phone: 123"]])).map
        (fun r => r.1.items) = some ["Widget A  2  19.99"] := by
  refine ⟨fun pages => ?_, by decide⟩
  simp only [extract_invoice_data, Option.map_some', processPages, findItems]

/-- Claim C6.  The tax id is computed by trying the labelled pattern
first and the bare 11-digit fallback only when the labelled one finds no
match anywhere; the value is the first capturing group of the first
matching pattern, stripped.  The two closed conjuncts exercise both
branches: a labelled `RUC:` value, and a bare 11-digit token with no
label. -/
theorem C6_theorem :
    (∀ pages : List (List String),
        (extract_invoice_data (some pages)).map (fun r => r.1.ruc_nit) =
          some (match searchAux rucPat1 (fullTextOf pages) with
                | some cap => String.mk (pyStrip (cap.getD []))
                | none =>
                    match searchAux rucPat2 (fullTextOf pages) with
                    | some cap => String.mk (pyStrip (cap.getD []))
                    | none => "")) ∧
    (extract_invoice_data (some [["ACME CORP", "RUC: 12345678901"]])).map
        (fun r => r.1.ruc_nit) = some "12345678901" ∧
    (extract_invoice_data (some [["x 12345678901"]])).map
        (fun r => r.1.ruc_nit) = some "12345678901" := by
  refine ⟨?_, by decide, by decide⟩
  intro pages
  cases h1 : searchAux rucPat1 (fullTextOf pages) with
  | some cap =>
      simp only [extract_invoice_data, Option.map_some', processPages, rucPatterns,
        runPatterns, h1, if_true]
  | none =>
      cases h2 : searchAux rucPat2 (fullTextOf pages) with
      | some cap =>
          simp only [extract_invoice_data, Option.map_some', processPages, rucPatterns,
            runPatterns, h1, h2, if_true]
      | none =>
          simp only [extract_invoice_data, Option.map_some', processPages, rucPatterns,
            runPatterns, h1, h2]

/-- Claim C7.  When the line sequence is empty (equivalently the
concatenated text is the empty string), extraction succeeds and every
scalar field is the empty string while `items` is the empty list. -/
theorem C7_theorem (pages : List (List String)) (h : ∀ p ∈ pages, p = []) :
    extract_invoice_data (some pages) =
      some (⟨"", "", "", "", "", "", "", "", []⟩, "") := by
  have hfull := fullTextOf_all_empty h
  simp only [extract_invoice_data, processPages, hfull]
  decide

/-- Witness for C7 at a concrete empty input. -/
theorem C7_witness :
    extract_invoice_data (some [[], []]) =
      some (⟨"", "", "", "", "", "", "", "", []⟩, "") :=
  C7_theorem [[], []] (by decide)

/-- Claim C8.  The `cliente` field of every returned record is the empty
string: it is initialised empty and the pattern table has no entry that
could ever populate it. -/
theorem C8_theorem (pages : List (List String)) :
    (extract_invoice_data (some pages)).map (fun r => r.1.cliente) = some "" := rfl

/-- Claim C9.  Extraction is a pure, deterministic function: its result
does not depend on the ambient module state (the Azure credential
globals), and two calls on identical input produce identical output. -/
theorem C9_theorem (env1 env2 : AppEnv) (ocr : Option (List (List String))) :
    extract_invoice_data_env env1 ocr = extract_invoice_data_env env2 ocr ∧
    extract_invoice_data_env env1 ocr = extract_invoice_data ocr :=
  ⟨rfl, rfl⟩

/-- Claim C10, counterexample.  The claim quantifies over any text
containing an amount label followed by a run of more than 5 digits, but
`re.search` commits to the leftmost match: in
`Total: 1 Total: 1234567` the first label wins and the captured total is
`1`, not the first 5 digits of the long run. -/
theorem C10_counterexample :
    (extract_invoice_data (some [["Total: 1 Total: 1234567"]])).map
        (fun r => r.1.total) = some "1" ∧ ("1" : String) ≠ "12345" := by decide

/-- Claim C10, amended.  When the amount label followed by the ungrouped
digit run is the leftmost match of the total pattern (here: the text is
exactly `Total: ` followed by a run of more than 5 digits), the captured
total is only the first 5 digits of the run (3 from `\d{1,3}` plus 2 from
`\d{0,2}`), silently dropping the remaining digits. -/
theorem C10_theorem (a b c d e f : Char) (t : List Char)
    (ha : isD a = true) (hb : isD b = true) (hc : isD c = true) (hd : isD d = true)
    (he : isD e = true) (_hf : isD f = true) (_ht : ∀ x ∈ t, isD x = true) :
    (extract_invoice_data
        (some [[String.mk ('T' :: 'o' :: 't' :: 'a' :: 'l' :: ':' :: ' ' :: a :: b :: c :: d :: e :: f :: t)]])).map
        (fun r => r.1.total) = some (String.mk [a, b, c, d, e]) := by
  have hfull : fullTextOf
      [[String.mk ('T' :: 'o' :: 't' :: 'a' :: 'l' :: ':' :: ' ' :: a :: b :: c :: d :: e :: f :: t)]] =
      'T' :: 'o' :: 't' :: 'a' :: 'l' :: ':' :: ' ' :: a :: b :: c :: d :: e :: (f :: (t ++ ['\n'])) := by
    simp [fullTextOf]
  have hs := searchAux_totalPat1_digitRun a b c d e (f :: (t ++ ['\n'])) ha hb hc hd he
  have hws : ∀ x ∈ [a, b, c, d, e], isWS x = false := by
    intro x hx
    simp only [List.mem_cons, List.not_mem_nil, or_false] at hx
    rcases hx with rfl | rfl | rfl | rfl | rfl
    exacts [isWS_of_isD ha, isWS_of_isD hb, isWS_of_isD hc, isWS_of_isD hd, isWS_of_isD he]
  simp only [extract_invoice_data, Option.map_some', processPages, totalPatterns,
    runPatterns, hfull, hs, if_true, Option.getD_some]
  rw [pyStrip_eq_self_of_all hws]

/-- Witness for C10 at the run `1234567`: the extracted total is `12345`. -/
theorem C10_witness :
    (extract_invoice_data
        (some [[String.mk
          ('T' :: 'o' :: 't' :: 'a' :: 'l' :: ':' :: ' ' :: '1' :: '2' :: '3' :: '4' :: '5' :: '6' :: ['7'])]])).map
        (fun r => r.1.total) = some (String.mk ['1', '2', '3', '4', '5']) :=
  C10_theorem '1' '2' '3' '4' '5' '6' ['7'] (by decide) (by decide) (by decide)
    (by decide) (by decide) (by decide) (by decide)
